import Mathlib

/-!
Verification of the severe-weather notifier (weather_api.py, main.py, send_alert.py)
against its natural-language specification.

The Python code is shallowly embedded: network responses, the weather payload and
the delivery channels become explicit inputs; Python exceptions that escape a
function become `PyResult.exn`; `None` and falsy values are modelled with `Option`.
-/

namespace WeatherAlert

/-- Outcome of a Python call: a normal return value, or an uncaught exception
(identified by its class name) propagating to the caller. -/
inductive PyResult (α : Type) where
  | ok (val : α)
  | exn (name : String)
deriving DecidableEq, Repr

/-- One weather descriptor `{id, description}` from the payload.  `id` is the raw
condition code: `some c` when Python's `int(...)` conversion yields `c`, `none`
when the value is unparseable (`int` raises `ValueError`/`TypeError`). -/
structure ConditionRecord where
  id : Option Int
  description : String
deriving DecidableEq, Repr

/-- `WeatherService.check_severity` (weather_api.py 84-111): maps a condition code
to `(is_severe, category)`; unparseable input is caught and mapped to
`(False, "Unknown")`. -/
def check_severity : Option Int → Bool × String
  | none => (false, "Unknown")
  | some id_code =>
    if 200 ≤ id_code ∧ id_code ≤ 232 then (true, "Thunderstorm")
    else if 500 ≤ id_code ∧ id_code ≤ 531 then (true, "Rain")
    else if 600 ≤ id_code ∧ id_code ≤ 622 then (true, "Snow")
    else if 700 ≤ id_code ∧ id_code ≤ 781 then (true, "Atmospheric Condition")
    else if 900 ≤ id_code ∧ id_code ≤ 906 then (true, "Extreme Weather")
    else (false, "Clear or Mild")

/-- One element of the geocoding response array; `lat`/`lon` is `none` when the
corresponding key is missing from the JSON object. -/
structure GeoItem where
  lat : Option ℚ
  lon : Option ℚ
deriving DecidableEq, Repr

/-- `WeatherService.get_coordinates` (weather_api.py 42-53).  The argument is what
`_make_api_request` returned: `none` for a request/JSON-decode failure (those are
caught inside `_make_api_request`), `some items` for a decoded JSON array.
`return (data[0]["lat"], data[0]["lon"]) if data else (None, None)`: a falsy
response gives `(None, None)`; a truthy response is indexed and subscripted with
no exception handling, so a first element without `lat` or `lon` raises
`KeyError` to the caller. -/
def get_coordinates (data : Option (List GeoItem)) : PyResult (Option ℚ × Option ℚ) :=
  match data with
  | none => .ok (none, none)
  | some [] => .ok (none, none)
  | some (item :: _) =>
    match item.lat with
    | none => .exn "KeyError"
    | some la =>
      match item.lon with
      | none => .exn "KeyError"
      | some lo => .ok (some la, some lo)

/-- The raw one-call payload, restricted to the keys the code reads.
`current_weather` is `raw_data["current"]["weather"]` (`none` when either key is
missing); `hourly` is the hourly array, each entry carrying its own
`"weather"` list (`none` when that key is missing). -/
structure RawData where
  current_weather : Option (List ConditionRecord)
  hourly : Option (List (Option (List ConditionRecord)))
deriving DecidableEq, Repr

/-- `hour["weather"][0]`: first descriptor of one hourly entry, `none` on a
missing key or an empty list (KeyError / IndexError). -/
def firstDescriptor (hw : Option (List ConditionRecord)) : Option ConditionRecord :=
  hw.bind List.head?

/-- The list comprehension `[hour["weather"][0] for hour in ...]`: any KeyError or
IndexError raised at one entry aborts the whole comprehension. -/
def firstOfEach : List (Option (List ConditionRecord)) → Option (List ConditionRecord)
  | [] => some []
  | hw :: rest =>
    match firstDescriptor hw, firstOfEach rest with
    | some c, some cs => some (c :: cs)
    | _, _ => none

/-- `WeatherService.extract_relevant_data` (weather_api.py 68-82): extracts
`current = raw_data["current"]["weather"][0]` and the first descriptor of each of
the first 12 hourly entries; every KeyError/IndexError is caught and mapped to
`None`. -/
def extract_relevant_data (raw : RawData) : Option (ConditionRecord × List ConditionRecord) :=
  match raw.current_weather with
  | none => none
  | some cw =>
    match cw.head? with
    | none => none
    | some current =>
      match raw.hourly with
      | none => none
      | some hours =>
        match firstOfEach (hours.take 12) with
        | none => none
        | some next_12_hours => some (current, next_12_hours)

/-- A successful `firstOfEach` is exactly a head-by-head extraction: if every
entry of the list is `some` of a nonempty descriptor list with head given by
`heads`, the comprehension succeeds and returns `heads`. -/
theorem firstOfEach_of_heads (l : List (Option (List ConditionRecord)))
    (heads : List ConditionRecord)
    (h : List.Forall₂ (fun hw c => ∃ hs, hw = some (c :: hs)) l heads) :
    firstOfEach l = some heads := by
  induction h with
  | nil => rfl
  | cons hrel _ ih =>
    obtain ⟨hs, rfl⟩ := hrel
    simp [firstOfEach, firstDescriptor, ih]

end WeatherAlert

namespace WeatherAlert

/-- C1: `check_severity` realises the classification table with inclusive
boundaries — Thunderstorm on [200,232], Rain on [500,531], Snow on [600,622],
Atmospheric Condition on [700,781], Extreme Weather on [900,906], all severe;
every other integer is non-severe Clear or Mild; unparseable input gives
non-severe Unknown instead of failing. -/
theorem C1_classify_table (c : Int) :
    (200 ≤ c ∧ c ≤ 232 → check_severity (some c) = (true, "Thunderstorm")) ∧
    (500 ≤ c ∧ c ≤ 531 → check_severity (some c) = (true, "Rain")) ∧
    (600 ≤ c ∧ c ≤ 622 → check_severity (some c) = (true, "Snow")) ∧
    (700 ≤ c ∧ c ≤ 781 → check_severity (some c) = (true, "Atmospheric Condition")) ∧
    (900 ≤ c ∧ c ≤ 906 → check_severity (some c) = (true, "Extreme Weather")) ∧
    (¬((200 ≤ c ∧ c ≤ 232) ∨ (500 ≤ c ∧ c ≤ 531) ∨ (600 ≤ c ∧ c ≤ 622) ∨
        (700 ≤ c ∧ c ≤ 781) ∨ (900 ≤ c ∧ c ≤ 906)) →
      check_severity (some c) = (false, "Clear or Mild")) ∧
    check_severity none = (false, "Unknown") := by
  refine ⟨fun h => ?_, fun h => ?_, fun h => ?_, fun h => ?_, fun h => ?_, fun h => ?_, rfl⟩ <;>
    simp only [check_severity] <;> split_ifs <;> first | rfl | (exfalso; omega)

/-- Witness for C1 at the boundary code 232. -/
theorem C1_witness : check_severity (some 232) = (true, "Thunderstorm") :=
  (C1_classify_table 232).1 (by decide)

/-- C5 counterexample: the claim says every malformed geocoding response —
including a non-empty array whose first element lacks `lat` — yields Absent
without raising; but `get_coordinates` on such a response raises `KeyError` to
the caller (`data[0]["lat"]` is evaluated with no handler once `data` is
truthy). -/
theorem C5_counterexample :
    get_coordinates (some [⟨none, some 7⟩]) = PyResult.exn "KeyError" := rfl

/-- C5 (amended): a falsy geocoding response — request/JSON failure (`none`) or
an empty match array — yields `(None, None)` without raising; a response with a
first match carrying both `lat` and `lon` yields that coordinate; but a
non-empty response whose first element lacks `lat` or `lon` raises `KeyError`
to the caller. -/
theorem C5_resolver (data : Option (List GeoItem)) :
    (data = none → get_coordinates data = .ok (none, none)) ∧
    (data = some [] → get_coordinates data = .ok (none, none)) ∧
    (∀ item rest la lo, data = some (item :: rest) →
      item.lat = some la → item.lon = some lo →
      get_coordinates data = .ok (some la, some lo)) ∧
    (∀ item rest, data = some (item :: rest) →
      item.lat = none ∨ item.lon = none →
      get_coordinates data = .exn "KeyError") := by
  refine ⟨fun h => ?_, fun h => ?_, fun item rest la lo h hla hlo => ?_,
    fun item rest h hml => ?_⟩
  · subst h; rfl
  · subst h; rfl
  · subst h; simp [get_coordinates, hla, hlo]
  · subst h
    rcases hml with hla | hlo
    · simp [get_coordinates, hla]
    · cases hlat : item.lat with
      | none => simp [get_coordinates, hlat]
      | some la => simp [get_coordinates, hlat, hlo]

/-- Witness for C5 (amended) on a successful lookup. -/
theorem C5_witness :
    get_coordinates (some [⟨some 6, some 3⟩]) = PyResult.ok (some 6, some 3) :=
  (C5_resolver (some [⟨some 6, some 3⟩])).2.2.1 ⟨some 6, some 3⟩ [] 6 3 rfl rfl rfl

/-- C8: `extract_relevant_data` returns `current` equal to the first weather
descriptor of the current section and `next_12_hours` equal to the first
descriptor of each of the first 12 hourly entries in original order (length
`min hours.length 12`, so exactly 12 when 12 or more hourly entries exist,
truncated otherwise); a payload missing the `hourly` key yields `None`. -/
theorem C8_normalize (raw : RawData) :
    (raw.hourly = none → extract_relevant_data raw = none) ∧
    (∀ current cs hours heads,
      raw.current_weather = some (current :: cs) →
      raw.hourly = some hours →
      List.Forall₂ (fun hw c => ∃ hs, hw = some (c :: hs)) (hours.take 12) heads →
      extract_relevant_data raw = some (current, heads) ∧
        heads.length = min hours.length 12) := by
  constructor
  · intro h
    cases hcw : raw.current_weather with
    | none => simp [extract_relevant_data, hcw]
    | some cw =>
      cases hh : cw.head? with
      | none => simp [extract_relevant_data, hcw, hh]
      | some cur => simp [extract_relevant_data, hcw, hh, h]
  · intro current cs hours heads hcw hh hfa
    have hfe := firstOfEach_of_heads _ _ hfa
    refine ⟨by simp [extract_relevant_data, hcw, hh, hfe], ?_⟩
    have hlen := hfa.length_eq
    simp only [List.length_take] at hlen
    omega

/-- A concrete payload for the C8 witness: a clear current condition and two
hourly entries. -/
def rawW : RawData :=
  ⟨some [⟨some 800, "clear sky"⟩],
   some [some [⟨some 210, "light thunderstorm"⟩], some [⟨some 601, "snow"⟩]]⟩

/-- Witness for C8 on `rawW`: both hourly heads are extracted in order and the
result is truncated to `min 2 12` entries. -/
theorem C8_witness :
    extract_relevant_data rawW =
      some (⟨some 800, "clear sky"⟩,
        [⟨some 210, "light thunderstorm"⟩, ⟨some 601, "snow"⟩]) ∧
    ([⟨some 210, "light thunderstorm"⟩, ⟨some 601, "snow"⟩] :
        List ConditionRecord).length = min 2 12 :=
  (C8_normalize rawW).2 ⟨some 800, "clear sky"⟩ []
    [some [⟨some 210, "light thunderstorm"⟩], some [⟨some 601, "snow"⟩]]
    [⟨some 210, "light thunderstorm"⟩, ⟨some 601, "snow"⟩] rfl rfl
    (List.Forall₂.cons ⟨[], rfl⟩ (List.Forall₂.cons ⟨[], rfl⟩ List.Forall₂.nil))

/-- Python truthiness of one coordinate component as used in
`if not lat or not lon:`: `None` and the float `0.0` are falsy, every other
number is truthy. -/
def truthyQ : Option ℚ → Bool
  | none => false
  | some v => decide (v ≠ 0)

/-- The time window an alert refers to. -/
inductive WhenWindow where
  | Now
  | Next12Hours
deriving DecidableEq, Repr

/-- One detected severe-weather instance, as embedded in the alert message
built by the orchestrator (city, window, category, condition description). -/
structure Finding where
  subjectLocation : String
  whenWindow : WhenWindow
  category : String
  description : String
deriving DecidableEq, Repr

/-- The external-world inputs one user's evaluation consumes: the city string,
the geocoding response for it, and the forecast fetch result (`none` when the
request failed or returned a falsy payload). -/
structure UserEnv where
  city : String
  geo : Option (List GeoItem)
  weather : Option RawData
deriving DecidableEq, Repr

/-- Which branch of the per-user loop body in `run_scheduled_check` terminated
the iteration for that user. -/
inductive StepStatus where
  | caughtError (msg : String)
  | coordsUnavailable
  | fetchFailed
  | extractFailed
  | severeNowAlert
  | forecastChecked
  | skippedForecast
deriving DecidableEq, Repr

/-- Result of one iteration of the user loop: the findings dispatched as
alerts, the terminating branch, and whether the iteration executed `break`
(aborting the whole loop) rather than falling through or `continue`. -/
structure UserResult where
  findings : List Finding
  status : StepStatus
  brk : Bool
deriving DecidableEq, Repr

/-- The body of the forecast loop (main.py 96-107 and weather_api.py 142-146):
classify one hourly entry and turn it into a finding when severe. -/
def severeFinding? (city : String) (hour : ConditionRecord) : Option Finding :=
  if (check_severity hour.id).1 then
    some ⟨city, WhenWindow.Next12Hours, (check_severity hour.id).2, hour.description⟩
  else none

/-- One iteration of the user loop of `run_scheduled_check` (main.py 58-118):
resolve coordinates (an exception is caught by the per-user handler), guard
their truthiness, fetch, extract, classify the current condition and — when it
is not severe and `check_future_weather` holds — classify each of the next 12
hours, alerting per severe entry.  When the current condition is not severe
and `check_future_weather` is false the code prints a skip message and then
executes `break`. -/
def process_user (check_future : Bool) (env : UserEnv) : UserResult :=
  match get_coordinates env.geo with
  | .exn e => ⟨[], .caughtError e, false⟩
  | .ok (lat, lon) =>
    if truthyQ lat && truthyQ lon then
      match env.weather with
      | none => ⟨[], .fetchFailed, false⟩
      | some raw =>
        match extract_relevant_data raw with
        | none => ⟨[], .extractFailed, false⟩
        | some (current, next_12_hours) =>
          if (check_severity current.id).1 then
            ⟨[⟨env.city, WhenWindow.Now, (check_severity current.id).2,
                current.description⟩],
              .severeNowAlert, false⟩
          else if check_future then
            ⟨next_12_hours.filterMap (severeFinding? env.city), .forecastChecked, false⟩
          else ⟨[], .skippedForecast, true⟩
    else ⟨[], .coordsUnavailable, false⟩

/-- The user loop of `run_scheduled_check` (main.py 52-118): users are
processed in order; an iteration that executed `break` terminates the loop,
every other outcome (`continue` or fall-through) lets the next user run. -/
def process_users (check_future : Bool) : List UserEnv → List UserResult
  | [] => []
  | u :: rest =>
    let r := process_user check_future u
    if r.brk then [r] else r :: process_users check_future rest

/-- The observable outcome of `WeatherService.check_weather`
(weather_api.py 113-149), identified by which message it prints. -/
inductive CheckOutcome where
  | coordsFail
  | fetchFail
  | extractFail
  | severeNow (f : Finding)
  | severeFuture (f : Finding)
  | noSevere
deriving DecidableEq, Repr

/-- `WeatherService.check_weather` (weather_api.py 113-149).  Same pipeline as
the scheduled loop body, except that the forecast loop `return`s at the first
severe hourly entry, and nothing catches an exception raised by
`get_coordinates`. -/
def check_weather (env : UserEnv) (check_future : Bool) : PyResult CheckOutcome :=
  match get_coordinates env.geo with
  | .exn e => .exn e
  | .ok (lat, lon) =>
    if truthyQ lat && truthyQ lon then
      match env.weather with
      | none => .ok .fetchFail
      | some raw =>
        match extract_relevant_data raw with
        | none => .ok .extractFail
        | some (current, next_12_hours) =>
          if (check_severity current.id).1 then
            .ok (.severeNow ⟨env.city, WhenWindow.Now,
              (check_severity current.id).2, current.description⟩)
          else if check_future then
            match next_12_hours.findSome? (severeFinding? env.city) with
            | some f => .ok (.severeFuture f)
            | none => .ok .noSevere
          else .ok .noSevere
    else .ok .coordsFail

/-- A `filterMap` over the severe-hour test is the severe hours, in order, each
mapped to its finding. -/
theorem filterMap_severeFinding (city : String) (hours : List ConditionRecord) :
    hours.filterMap (severeFinding? city) =
      (hours.filter (fun h => (check_severity h.id).1)).map
        (fun h => ⟨city, WhenWindow.Next12Hours, (check_severity h.id).2,
          h.description⟩) := by
  induction hours with
  | nil => rfl
  | cons h t ih =>
    by_cases hs : (check_severity h.id).1 = true <;>
      simp [List.filterMap_cons, List.filter_cons, severeFinding?, hs, ih]

/-- C7: when a city resolves to usable coordinates, the fetch and extraction
succeed and the current condition classifies as severe, both the scheduled
loop body and `check_weather` emit exactly one Finding with `whenWindow = Now`
and no forecast-window findings, for either value of the forecast flag, and the
evaluation of that city stops there without breaking the loop. -/
theorem C7_current_severe (env : UserEnv) (la lo : ℚ) (raw : RawData)
    (current : ConditionRecord) (hours : List ConditionRecord)
    (hc : get_coordinates env.geo = PyResult.ok (some la, some lo))
    (hla : la ≠ 0) (hlo : lo ≠ 0)
    (hw : env.weather = some raw)
    (hex : extract_relevant_data raw = some (current, hours))
    (hsev : (check_severity current.id).1 = true) :
    ∀ check_future : Bool,
      process_user check_future env =
        ⟨[⟨env.city, WhenWindow.Now, (check_severity current.id).2,
            current.description⟩],
          StepStatus.severeNowAlert, false⟩ ∧
      check_weather env check_future =
        PyResult.ok (CheckOutcome.severeNow
          ⟨env.city, WhenWindow.Now, (check_severity current.id).2,
            current.description⟩) := by
  intro cf
  constructor <;>
    simp [process_user, check_weather, hc, hw, hex, truthyQ, hla, hlo, hsev]

/-- A concrete environment with severe current weather (code 201) for the C7
witness. -/
def envSevereNow : UserEnv :=
  ⟨"Lagos", some [⟨some 9, some 7⟩],
    some ⟨some [⟨some 201, "thunderstorm with rain"⟩], some []⟩⟩

/-- Witness for C7 at `envSevereNow` with the forecast flag on. -/
theorem C7_witness :
    process_user true envSevereNow =
      ⟨[⟨"Lagos", WhenWindow.Now, "Thunderstorm", "thunderstorm with rain"⟩],
        StepStatus.severeNowAlert, false⟩ ∧
    check_weather envSevereNow true =
      PyResult.ok (CheckOutcome.severeNow
        ⟨"Lagos", WhenWindow.Now, "Thunderstorm", "thunderstorm with rain"⟩) :=
  C7_current_severe envSevereNow 9 7 ⟨some [⟨some 201, "thunderstorm with rain"⟩], some []⟩
    ⟨some 201, "thunderstorm with rain"⟩ [] rfl (by decide) (by decide) rfl rfl rfl true

/-- C2: when a city resolves, the pipeline succeeds, the current condition is
not severe and the forecast flag is on, the scheduled loop body classifies each
of the next 12 hourly entries in order and emits one Finding per severe entry,
preserving chronological order; in particular the number of findings equals the
number of severe hourly entries. -/
theorem C2_forecast_window (env : UserEnv) (la lo : ℚ) (raw : RawData)
    (current : ConditionRecord) (hours : List ConditionRecord)
    (hc : get_coordinates env.geo = PyResult.ok (some la, some lo))
    (hla : la ≠ 0) (hlo : lo ≠ 0)
    (hw : env.weather = some raw)
    (hex : extract_relevant_data raw = some (current, hours))
    (hnot : (check_severity current.id).1 = false) :
    process_user true env =
      ⟨(hours.filter (fun h => (check_severity h.id).1)).map
          (fun h => ⟨env.city, WhenWindow.Next12Hours, (check_severity h.id).2,
            h.description⟩),
        StepStatus.forecastChecked, false⟩ ∧
    (process_user true env).findings.length =
      (hours.filter (fun h => (check_severity h.id).1)).length := by
  have h1 : process_user true env =
      ⟨(hours.filter (fun h => (check_severity h.id).1)).map
          (fun h => ⟨env.city, WhenWindow.Next12Hours, (check_severity h.id).2,
            h.description⟩),
        StepStatus.forecastChecked, false⟩ := by
    simp [process_user, hc, hw, hex, truthyQ, hla, hlo, hnot, filterMap_severeFinding]
  exact ⟨h1, by rw [h1]; simp⟩

/-- A concrete environment for the C2 witness: clear current weather and four
hourly entries of which the second and fourth are severe. -/
def envForecast : UserEnv :=
  ⟨"Kano", some [⟨some 9, some 7⟩],
    some ⟨some [⟨some 800, "clear sky"⟩],
      some [some [⟨some 800, "clear sky"⟩], some [⟨some 210, "light thunderstorm"⟩],
        some [⟨some 801, "few clouds"⟩], some [⟨some 601, "snow"⟩]]⟩⟩

/-- Witness for C2 at `envForecast`: exactly the two severe hourly entries
produce findings, in chronological order. -/
theorem C2_witness :
    process_user true envForecast =
      ⟨[⟨"Kano", WhenWindow.Next12Hours, "Thunderstorm", "light thunderstorm"⟩,
        ⟨"Kano", WhenWindow.Next12Hours, "Snow", "snow"⟩],
        StepStatus.forecastChecked, false⟩ := by
  have h := (C2_forecast_window envForecast 9 7
    ⟨some [⟨some 800, "clear sky"⟩],
      some [some [⟨some 800, "clear sky"⟩], some [⟨some 210, "light thunderstorm"⟩],
        some [⟨some 801, "few clouds"⟩], some [⟨some 601, "snow"⟩]]⟩
    ⟨some 800, "clear sky"⟩
    [⟨some 800, "clear sky"⟩, ⟨some 210, "light thunderstorm"⟩,
      ⟨some 801, "few clouds"⟩, ⟨some 601, "snow"⟩]
    rfl (by decide) (by decide) rfl rfl rfl).1
  rw [h]; rfl

/-- C9: when the resolved coordinate has latitude 0 or longitude 0, the
truthiness guard `if not lat or not lon:` treats it as unavailable: both the
scheduled loop body and `check_weather` take the coordinate-unavailable path
and yield no findings, for either value of the forecast flag. -/
theorem C9_zero_coordinate (env : UserEnv) (la lo : ℚ)
    (hc : get_coordinates env.geo = PyResult.ok (some la, some lo))
    (hzero : la = 0 ∨ lo = 0) :
    ∀ check_future : Bool,
      process_user check_future env = ⟨[], StepStatus.coordsUnavailable, false⟩ ∧
      check_weather env check_future = PyResult.ok CheckOutcome.coordsFail := by
  intro cf
  have ht : (truthyQ (some la) && truthyQ (some lo)) = false := by
    rcases hzero with h | h <;> subst h <;> simp [truthyQ]
  constructor <;> simp [process_user, check_weather, hc, ht]

/-- A concrete environment whose geocoding response is the exact equator-line
coordinate (0, 32.58) for the C9 witness. -/
def envEquator : UserEnv :=
  ⟨"Entebbe", some [⟨some 0, some (3258/100)⟩],
    some ⟨some [⟨some 201, "thunderstorm with rain"⟩], some []⟩⟩

/-- Witness for C9 at `envEquator`: despite a present, finite coordinate and
severe current weather, the zero latitude makes evaluation yield nothing. -/
theorem C9_witness :
    process_user true envEquator = ⟨[], StepStatus.coordsUnavailable, false⟩ ∧
    check_weather envEquator true = PyResult.ok CheckOutcome.coordsFail :=
  C9_zero_coordinate envEquator 0 (3258/100) rfl (Or.inl rfl) true

/-- A user environment that resolves cleanly to non-severe current weather,
used to exhibit the forecast-window `break`. -/
def envLagosClear : UserEnv :=
  ⟨"Lagos", some [⟨some 9, some 7⟩], some ⟨some [⟨some 800, "clear sky"⟩], some []⟩⟩

/-- A second user, never reached when the loop breaks on the first. -/
def envAbujaClear : UserEnv :=
  ⟨"Abuja", some [⟨some 9, some 7⟩], some ⟨some [⟨some 800, "clear sky"⟩], some []⟩⟩

/-- C3 (code bug): with the forecast window off, the `else: ... break` at
main.py 108-110 exits the user loop after the first user whose current weather
is not severe, so the second user is never evaluated — the loop yields one
result for two users.  With the flag on, the same two users both get
processed. -/
theorem C3_break_bug :
    process_users false [envLagosClear, envAbujaClear] =
      [⟨[], StepStatus.skippedForecast, true⟩] ∧
    process_users true [envLagosClear, envAbujaClear] =
      [⟨[], StepStatus.forecastChecked, false⟩,
        ⟨[], StepStatus.forecastChecked, false⟩] := by
  constructor <;> rfl

/-- The channel configuration read from the environment by
`AlertSender.__init__` (send_alert.py 20-29); `none` models an unset (or empty,
hence falsy) variable. -/
structure AlertConfig where
  twilio_sid : Option String
  twilio_token : Option String
  twilio_number : Option String
  email_address : Option String
  email_password : Option String
deriving DecidableEq, Repr

/-- Outcome of one external delivery call: a provider return value, or a raised
exception carrying its message text. -/
inductive Attempt (α : Type) where
  | ok (val : α)
  | raised (err : String)
deriving DecidableEq, Repr

/-- The network-determined behaviour of the two delivery channels for one
dispatch. -/
structure ChannelEnv where
  smsNetwork : Attempt String
  emailNetwork : Attempt Unit
deriving DecidableEq, Repr

/-- Modelled from the spec: the external SMS gateway call
(`twilio_client.messages.create`) is an out-of-scope collaborator; per spec §6
and §4.5, missing required configuration (account id or auth token) makes the
attempt fail — here, raise — and otherwise the network decides. -/
def smsChannelAttempt (cfg : AlertConfig) (ch : ChannelEnv) : Attempt String :=
  if cfg.twilio_sid = none ∨ cfg.twilio_token = none then
    Attempt.raised "Twilio credentials are missing or invalid"
  else ch.smsNetwork

/-- Modelled from the spec: the external SMTP relay (`smtplib.SMTP_SSL` login
and send) is an out-of-scope collaborator; missing sender address or credential
makes the attempt raise, otherwise the network decides. -/
def emailChannelAttempt (cfg : AlertConfig) (ch : ChannelEnv) : Attempt Unit :=
  if cfg.email_address = none ∨ cfg.email_password = none then
    Attempt.raised "SMTP authentication failed"
  else ch.emailNetwork

/-- `AlertSender.send_sms` (send_alert.py 40-60): inside a catch-all handler,
raise `ValueError` when the sender number is unset, otherwise attempt the
gateway call; every exception is caught and returned as `(False, text)`. -/
def send_sms (cfg : AlertConfig) (ch : ChannelEnv) (to_phone message : String) :
    Bool × String :=
  match cfg.twilio_number with
  | none =>
    (false, "Twilio from number is not set. Check your .env file for TWILIO_PHONE_NUMBER.")
  | some _ =>
    match smsChannelAttempt cfg ch with
    | .ok sid => (true, sid)
    | .raised e => (false, e)

/-- `AlertSender.send_email` (send_alert.py 62-84): inside a catch-all handler,
build the message and attempt the SMTP delivery; success returns
`(True, "Email sent")`, any exception is caught and returned as
`(False, text)`. -/
def send_email (cfg : AlertConfig) (ch : ChannelEnv)
    (to_email subject message : String) : Bool × String :=
  match emailChannelAttempt cfg ch with
  | .ok _ => (true, "Email sent")
  | .raised e => (false, e)

/-- Prefix match of `[^@]` against the next character: at least one non-at
character must follow the dot. -/
def afterDotChar : List Char → Bool
  | [] => false
  | c :: _ => c != '@'

/-- Prefix match of the regex fragment `[^@]*\.[^@]+`: either the dot is here
and a non-at character follows, or the current character extends `[^@]*`. -/
def domainMatchAux : List Char → Bool
  | [] => false
  | x :: t => (x == '.' && afterDotChar t) || (x != '@' && domainMatchAux t)

/-- Prefix match of the regex fragment `[^@]+\.[^@]+` (what must follow the
at sign). -/
def domainMatch : List Char → Bool
  | [] => false
  | a :: t => a != '@' && domainMatchAux t

/-- Continuation of the local part `[^@]+@...`: consume non-at characters until
the first at sign, then match the domain fragment. -/
def emailLocal : List Char → Bool
  | [] => false
  | x :: t => if x == '@' then domainMatch t else emailLocal t

/-- `re.match(r"[^@]+@[^@]+\.[^@]+", email)` as a character-list matcher: the
pattern is anchored at the start only and may match a strict prefix. -/
def validAux : List Char → Bool
  | [] => false
  | a :: t => a != '@' && emailLocal t

/-- `AlertSender.is_valid_email` (send_alert.py 31-38). -/
def is_valid_email (email : String) : Bool := validAux email.data

/-- A channel invocation performed during one dispatch call. -/
inductive ChannelEvent where
  | smsTry
  | emailTry
deriving DecidableEq, Repr

/-- `AlertSender.send_alert` (send_alert.py 86-108): try SMS first; on failure
validate the email address and, only when it is valid, try email.  The second
component records which channels were invoked, in order. -/
def send_alert (cfg : AlertConfig) (ch : ChannelEnv) (phone email message : String) :
    (String × String) × List ChannelEvent :=
  let smsres := send_sms cfg ch phone message
  if smsres.1 then (("SMS", smsres.2), [ChannelEvent.smsTry])
  else if is_valid_email email then
    let emailres := send_email cfg ch email "Severe Weather Alert" message
    if emailres.1 then (("Email", emailres.2), [ChannelEvent.smsTry, ChannelEvent.emailTry])
    else (("Failed", emailres.2), [ChannelEvent.smsTry, ChannelEvent.emailTry])
  else (("Failed", "Invalid email address"), [ChannelEvent.smsTry])

/-- A successful `send_email` always reports the fixed detail text. -/
theorem send_email_success (cfg : AlertConfig) (ch : ChannelEnv)
    (to_email subject message : String)
    (h : (send_email cfg ch to_email subject message).1 = true) :
    send_email cfg ch to_email subject message = (true, "Email sent") := by
  cases hE : emailChannelAttempt cfg ch with
  | ok v => simp [send_email, hE]
  | raised e => simp [send_email, hE] at h

/-- `domainMatchAux` succeeds exactly on lists beginning with zero or more
non-at characters, a dot, and one more non-at character. -/
theorem domainMatchAux_iff (t : List Char) :
    domainMatchAux t = true ↔
      ∃ b c rest, t = b ++ '.' :: c :: rest ∧ (∀ x ∈ b, x ≠ '@') ∧ c ≠ '@' := by
  induction t with
  | nil =>
    simp only [domainMatchAux, Bool.false_eq_true, false_iff]
    rintro ⟨b, c, rest, heq, -, -⟩
    exact absurd heq.symm (List.append_ne_nil_of_right_ne_nil b (by simp))
  | cons x t ih =>
    simp only [domainMatchAux, Bool.or_eq_true, Bool.and_eq_true, beq_iff_eq,
      bne_iff_ne, ih]
    constructor
    · rintro (⟨rfl, hafter⟩ | ⟨hx, b, c, rest, rfl, hb, hc⟩)
      · cases t with
        | nil => simp [afterDotChar] at hafter
        | cons c rest =>
          exact ⟨[], c, rest, rfl, by simp, by simpa [afterDotChar] using hafter⟩
      · refine ⟨x :: b, c, rest, rfl, ?_, hc⟩
        intro y hy
        rcases List.mem_cons.mp hy with rfl | hy
        · exact hx
        · exact hb y hy
    · rintro ⟨b, c, rest, heq, hb, hc⟩
      cases b with
      | nil =>
        simp only [List.nil_append, List.cons.injEq] at heq
        obtain ⟨rfl, rfl⟩ := heq
        exact Or.inl ⟨rfl, by simpa [afterDotChar] using hc⟩
      | cons y b' =>
        simp only [List.cons_append, List.cons.injEq] at heq
        obtain ⟨rfl, rfl⟩ := heq
        exact Or.inr ⟨hb x (by simp), b', c, rest, rfl,
          fun z hz => hb z (List.mem_cons_of_mem x hz), hc⟩

/-- `domainMatch` succeeds exactly on lists beginning with one or more non-at
characters, a dot, and one more non-at character. -/
theorem domainMatch_iff (t : List Char) :
    domainMatch t = true ↔
      ∃ b c rest, t = b ++ '.' :: c :: rest ∧ b ≠ [] ∧
        (∀ x ∈ b, x ≠ '@') ∧ c ≠ '@' := by
  cases t with
  | nil =>
    simp only [domainMatch, Bool.false_eq_true, false_iff]
    rintro ⟨b, c, rest, heq, -, -, -⟩
    exact absurd heq.symm (List.append_ne_nil_of_right_ne_nil b (by simp))
  | cons a t =>
    simp only [domainMatch, Bool.and_eq_true, bne_iff_ne, domainMatchAux_iff]
    constructor
    · rintro ⟨ha, b, c, rest, rfl, hb, hc⟩
      refine ⟨a :: b, c, rest, rfl, by simp, ?_, hc⟩
      intro y hy
      rcases List.mem_cons.mp hy with rfl | hy
      · exact ha
      · exact hb y hy
    · rintro ⟨b, c, rest, heq, hbne, hb, hc⟩
      cases b with
      | nil => exact absurd rfl hbne
      | cons y b' =>
        simp only [List.cons_append, List.cons.injEq] at heq
        obtain ⟨rfl, rfl⟩ := heq
        exact ⟨hb a (by simp), b', c, rest, rfl,
          fun z hz => hb z (List.mem_cons_of_mem a hz), hc⟩

/-- `emailLocal` succeeds exactly when the list continues with non-at
characters up to an at sign whose remainder passes `domainMatch`. -/
theorem emailLocal_iff (t : List Char) :
    emailLocal t = true ↔
      ∃ l t2, t = l ++ '@' :: t2 ∧ (∀ x ∈ l, x ≠ '@') ∧ domainMatch t2 = true := by
  induction t with
  | nil =>
    simp only [emailLocal, Bool.false_eq_true, false_iff]
    rintro ⟨l, t2, heq, -, -⟩
    exact absurd heq.symm (List.append_ne_nil_of_right_ne_nil l (by simp))
  | cons x t ih =>
    by_cases hx : x = '@'
    · subst hx
      simp only [emailLocal, beq_self_eq_true, if_true]
      constructor
      · intro h
        exact ⟨[], t, rfl, by simp, h⟩
      · rintro ⟨l, t2, heq, hl, hd⟩
        cases l with
        | nil =>
          simp only [List.nil_append, List.cons.injEq] at heq
          exact heq.2 ▸ hd
        | cons y l' =>
          simp only [List.cons_append, List.cons.injEq] at heq
          exact absurd heq.1.symm (hl y (by simp))
    · have hxb : (x == '@') = false := by simpa using hx
      simp only [emailLocal, hxb, Bool.false_eq_true, if_false, ih]
      constructor
      · rintro ⟨l, t2, rfl, hl, hd⟩
        refine ⟨x :: l, t2, rfl, ?_, hd⟩
        intro y hy
        rcases List.mem_cons.mp hy with rfl | hy
        · exact hx
        · exact hl y hy
      · rintro ⟨l, t2, heq, hl, hd⟩
        cases l with
        | nil =>
          simp only [List.nil_append, List.cons.injEq] at heq
          exact absurd heq.1 hx
        | cons y l' =>
          simp only [List.cons_append, List.cons.injEq] at heq
          obtain ⟨rfl, rfl⟩ := heq
          exact ⟨l', t2, rfl, fun z hz => hl z (List.mem_cons_of_mem x hz), hd⟩

/-- The shape `is_valid_email` actually accepts: some prefix of the string is
one or more non-at characters, an at sign, one or more non-at characters, a
dot, and one more non-at character — anything, at signs included, may
follow. -/
def validEmailShape (s : String) : Prop :=
  ∃ a b c rest, s.data = a ++ '@' :: (b ++ '.' :: c :: rest) ∧
    a ≠ [] ∧ (∀ x ∈ a, x ≠ '@') ∧ b ≠ [] ∧ (∀ x ∈ b, x ≠ '@') ∧ c ≠ '@'

/-- The validity condition exactly as the claim words it: some prefix of the
string is one or more non-at characters, then an at sign, then one or more
non-at characters containing a dot, with no anchor at the end. -/
def emailClaimShape (s : String) : Prop :=
  ∃ a b rest, s.data = a ++ '@' :: (b ++ rest) ∧
    a ≠ [] ∧ (∀ x ∈ a, x ≠ '@') ∧ b ≠ [] ∧ (∀ x ∈ b, x ≠ '@') ∧ '.' ∈ b

/-- C10 counterexample: the string `a@.x` satisfies the claim's wording — the
whole string is one non-at character, an at sign, then the non-at characters
`.x` which contain a dot — yet `is_valid_email` rejects it, because
`[^@]+\.[^@]+` needs a non-at character before the dot. -/
theorem C10_counterexample :
    emailClaimShape "a@.x" ∧ is_valid_email "a@.x" = false := by
  constructor
  · exact ⟨['a'], ['.', 'x'], [], rfl, by simp, by decide, by simp, by decide, by decide⟩
  · rfl

/-- C10 (amended): `is_valid_email` returns true exactly when some prefix of
the string is one or more non-at characters, an at sign, one or more non-at
characters, a dot, and at least one further non-at character — with no anchor
at the end; in particular `a@b.c@d` (two at signs, trailing characters after
the top-level domain) is accepted, and whenever the SMS step has failed the
email channel is then attempted for it. -/
theorem C10_email_regex (s : String) :
    (is_valid_email s = true ↔ validEmailShape s) ∧
    is_valid_email "a@b.c@d" = true ∧
    (∀ (cfg : AlertConfig) (ch : ChannelEnv) (phone message : String),
      (send_sms cfg ch phone message).1 = false →
      ChannelEvent.emailTry ∈ (send_alert cfg ch phone "a@b.c@d" message).2) := by
  refine ⟨?_, rfl, fun cfg ch phone message hs => ?_⟩
  · cases hs : s.data with
    | nil =>
      simp only [is_valid_email, hs, validAux, Bool.false_eq_true, false_iff]
      rintro ⟨a, b, c, rest, heq, -, -, -, -, -⟩
      rw [hs] at heq
      exact absurd heq.symm (List.append_ne_nil_of_right_ne_nil a (by simp))
    | cons a t =>
      simp only [is_valid_email, hs, validAux, Bool.and_eq_true, bne_iff_ne,
        emailLocal_iff]
      unfold validEmailShape
      rw [hs]
      constructor
      · rintro ⟨ha, l, t2, rfl, hl, hd⟩
        rw [domainMatch_iff] at hd
        obtain ⟨b, c, rest, rfl, hbne, hb, hc⟩ := hd
        refine ⟨a :: l, b, c, rest, rfl, by simp, ?_, hbne, hb, hc⟩
        intro y hy
        rcases List.mem_cons.mp hy with rfl | hy
        · exact ha
        · exact hl y hy
      · rintro ⟨A, b, c, rest, heq, hAne, hA, hbne, hb, hc⟩
        cases A with
        | nil => exact absurd rfl hAne
        | cons a0 A' =>
          simp only [List.cons_append, List.cons.injEq] at heq
          obtain ⟨rfl, rfl⟩ := heq
          refine ⟨hA a (by simp), A', b ++ '.' :: c :: rest, rfl,
            fun z hz => hA z (List.mem_cons_of_mem a hz), ?_⟩
          rw [domainMatch_iff]
          exact ⟨b, c, rest, rfl, hbne, hb, hc⟩
  · unfold send_alert
    simp only [hs, Bool.false_eq_true, if_false]
    have hv : is_valid_email "a@b.c@d" = true := rfl
    rw [hv]
    simp only [if_true]
    split_ifs <;> simp

/-- Witness for C10 (amended): `a@b.c@d` exhibits the accepted shape. -/
theorem C10_witness : validEmailShape "a@b.c@d" :=
  (C10_email_regex "a@b.c@d").1.mp rfl

/-- C4: `send_alert` follows the TrySMS, then TryEmail, then Failed machine —
SMS success reports the provider id and never touches email; SMS failure with
an invalid address reports Failed with the fixed detail and never touches
email; SMS failure with a valid address makes exactly one email attempt,
reporting Email with detail "Email sent" on success and Failed with the error
text otherwise; exactly one of the three outcomes is reported, with at most one
invocation per channel. -/
theorem C4_dispatch_machine (cfg : AlertConfig) (ch : ChannelEnv)
    (phone email message : String) :
    ((send_alert cfg ch phone email message).1.1 = "SMS" ∨
      (send_alert cfg ch phone email message).1.1 = "Email" ∨
      (send_alert cfg ch phone email message).1.1 = "Failed") ∧
    (send_alert cfg ch phone email message).2.count ChannelEvent.smsTry ≤ 1 ∧
    (send_alert cfg ch phone email message).2.count ChannelEvent.emailTry ≤ 1 ∧
    ((send_sms cfg ch phone message).1 = true →
      send_alert cfg ch phone email message =
        (("SMS", (send_sms cfg ch phone message).2), [ChannelEvent.smsTry])) ∧
    ((send_sms cfg ch phone message).1 = false → is_valid_email email = false →
      send_alert cfg ch phone email message =
        (("Failed", "Invalid email address"), [ChannelEvent.smsTry])) ∧
    ((send_sms cfg ch phone message).1 = false → is_valid_email email = true →
      ((send_email cfg ch email "Severe Weather Alert" message).1 = true →
        send_alert cfg ch phone email message =
          (("Email", "Email sent"),
            [ChannelEvent.smsTry, ChannelEvent.emailTry])) ∧
      ((send_email cfg ch email "Severe Weather Alert" message).1 = false →
        send_alert cfg ch phone email message =
          (("Failed", (send_email cfg ch email "Severe Weather Alert" message).2),
            [ChannelEvent.smsTry, ChannelEvent.emailTry]))) := by
  by_cases hs : (send_sms cfg ch phone message).1 = true
  · refine ⟨?_, ?_, ?_, fun _ => ?_, fun hf _ => ?_, fun hf _ => ?_⟩ <;>
      simp_all [send_alert]
  · have hs' : (send_sms cfg ch phone message).1 = false := by
      simpa using hs
    by_cases he : is_valid_email email = true
    · by_cases hee : (send_email cfg ch email "Severe Weather Alert" message).1 = true
      · have h2 := send_email_success cfg ch email "Severe Weather Alert" message hee
        refine ⟨?_, ?_, ?_, fun ht => ?_, fun _ hf => ?_, fun _ _ => ⟨fun _ => ?_, fun hf => ?_⟩⟩ <;>
          simp_all [send_alert]
      · have hee' : (send_email cfg ch email "Severe Weather Alert" message).1 = false := by
          simpa using hee
        refine ⟨?_, ?_, ?_, fun ht => ?_, fun _ hf => ?_, fun _ _ => ⟨fun ht => ?_, fun _ => ?_⟩⟩ <;>
          simp_all [send_alert]
    · have he' : is_valid_email email = false := by simpa using he
      refine ⟨?_, ?_, ?_, fun ht => ?_, fun _ _ => ?_, fun _ ht => ?_⟩ <;>
        simp_all [send_alert]

/-- A fully configured dispatcher whose SMS gateway succeeds, for the C4
witness. -/
def cfgFull : AlertConfig :=
  ⟨some "AC1", some "token1", some "+15550100", some "sender@example.com", some "pw"⟩

/-- A channel environment where both external calls would succeed. -/
def chOk : ChannelEnv := ⟨Attempt.ok "SM123", Attempt.ok ()⟩

/-- Witness for C4: with a working SMS gateway the outcome is the provider id
and only the SMS channel is invoked. -/
theorem C4_witness :
    send_alert cfgFull chOk "+2348000000000" "user@example.com" "alert" =
      (("SMS", "SM123"), [ChannelEvent.smsTry]) :=
  (C4_dispatch_machine cfgFull chOk "+2348000000000" "user@example.com"
    "alert").2.2.2.1 rfl

/-- C6: when an SMS configuration value (account id, auth token, or sender
number) is missing, the SMS step fails as a caught `(False, text)` result, the
dispatch never reports SMS, the email channel is attempted whenever the address
is valid, and the call still returns an Email-or-Failed outcome rather than
propagating an exception. -/
theorem C6_missing_sms_config (cfg : AlertConfig) (ch : ChannelEnv)
    (phone email message : String)
    (hmiss : cfg.twilio_sid = none ∨ cfg.twilio_token = none ∨
      cfg.twilio_number = none) :
    (send_sms cfg ch phone message).1 = false ∧
    (send_alert cfg ch phone email message).1.1 ≠ "SMS" ∧
    (is_valid_email email = true →
      ChannelEvent.emailTry ∈ (send_alert cfg ch phone email message).2) ∧
    ((send_alert cfg ch phone email message).1.1 = "Email" ∨
      (send_alert cfg ch phone email message).1.1 = "Failed") := by
  have hs : (send_sms cfg ch phone message).1 = false := by
    unfold send_sms
    cases hn : cfg.twilio_number with
    | none => simp
    | some n =>
      rcases hmiss with h | h | h
      · simp [smsChannelAttempt, h]
      · simp [smsChannelAttempt, h]
      · rw [h] at hn; exact absurd hn (by simp)
  refine ⟨hs, ?_, fun he => ?_, ?_⟩ <;> unfold send_alert <;>
    simp only [hs, Bool.false_eq_true, if_false]
  · split_ifs <;> simp
  · simp only [he, if_true]
    split_ifs <;> simp
  · split_ifs <;> simp

/-- A configuration whose sender number is unset, for the C6 witness. -/
def cfgNoNumber : AlertConfig :=
  ⟨some "AC1", some "token1", none, some "sender@example.com", some "pw"⟩

/-- Witness for C6: with the sender number unset and a valid address, SMS fails
structurally and the dispatch falls back to an email attempt. -/
theorem C6_witness :
    (send_sms cfgNoNumber chOk "+2348000000000" "alert").1 = false ∧
    (send_alert cfgNoNumber chOk "+2348000000000" "user@example.com" "alert").1.1 ≠ "SMS" ∧
    (is_valid_email "user@example.com" = true →
      ChannelEvent.emailTry ∈
        (send_alert cfgNoNumber chOk "+2348000000000" "user@example.com" "alert").2) ∧
    ((send_alert cfgNoNumber chOk "+2348000000000" "user@example.com" "alert").1.1 = "Email" ∨
      (send_alert cfgNoNumber chOk "+2348000000000" "user@example.com" "alert").1.1 = "Failed") :=
  C6_missing_sms_config cfgNoNumber chOk "+2348000000000" "user@example.com" "alert"
    (Or.inr (Or.inr rfl))

end WeatherAlert
